import Mathlib

/-!
Verification of the RoadSense prediction service
(`src/fastapi-backend/app.py`): a shallow embedding of the FastAPI
`/predict` pipeline — pydantic request parsing, pandas feature-matrix
assembly with `astype(np.float32)`, ONNX-Runtime session construction and
invocation, and the error wrapping — together with theorems settling the
spec's claims about it.

Numeric values are modelled as exact rationals (`ℚ`); the
`astype(np.float32)` cast is modelled by genuine IEEE-754 binary32
round-to-nearest-even (`roundF32`) over the finite range (overflow to
infinity and NaN payloads are outside the scope of the claims).
-/

namespace RoadSense

/-! ### IEEE-754 binary32 rounding (`numpy.float32` cast)

`np.float32` casts each matrix element by rounding the exact value to the
nearest binary32 float, ties to even.  We compute the rounded value as an
exact rational: `f32mk num den` returns the signed mantissa and binary
exponent of the rounded value of `num / den`, using only integer
arithmetic so that concrete instances reduce in the kernel. -/

/-- Fuel-driven floor of `log₂ n` (the fuel `n` itself always suffices). -/
def ilog2Aux : ℕ → ℕ → ℕ
  | 0, _ => 0
  | fuel + 1, n => if n ≤ 1 then 0 else ilog2Aux fuel (n / 2) + 1

/-- `⌊log₂ n⌋` for `1 ≤ n` (and `0` at `0`). -/
def natLog2 (n : ℕ) : ℕ := ilog2Aux n n

/-- `⌊log₂ (n / d)⌋` for positive naturals `n`, `d`: the unique `e` with
`2 ^ e ≤ n / d < 2 ^ (e + 1)`, computed from the bit lengths of `n` and
`d` with a one-step correction. -/
def floorLog2Frac (n d : ℕ) : ℤ :=
  let a : ℤ := natLog2 n
  let b : ℤ := natLog2 d
  let ok : Bool :=
    if b ≤ a then decide (d * 2 ^ (a - b).toNat ≤ n)
    else decide (d ≤ n * 2 ^ (b - a).toNat)
  if ok then a - b else a - b - 1

/-- Nearest integer to `a / b` for `b > 0`, ties to even. -/
def rneDiv (a b : ℤ) : ℤ :=
  let q := Int.ediv a b
  let r := Int.emod a b
  if 2 * r < b then q
  else if b < 2 * r then q + 1
  else if Int.emod q 2 = 0 then q else q + 1

/-- Signed mantissa and exponent of the binary32 rounding of `num / den`
(`den > 0`, `num ≠ 0`): the value is clamped to 24 significant bits
(subnormals: exponent floor `-149`), round-to-nearest ties-to-even. -/
def f32mk (num : ℤ) (den : ℕ) : ℤ × ℤ :=
  let n : ℕ := num.natAbs
  let e : ℤ := floorLog2Frac n den
  let k : ℤ := if e - 23 < -149 then -149 else e - 23
  let m : ℤ := rneDiv (n * 2 ^ (-k).toNat) (den * 2 ^ k.toNat)
  (if num < 0 then -m else m, k)

/-- The exact value of `np.float32 q` for a finite-range rational `q`:
IEEE-754 binary32 round-to-nearest-even.  This is the element-wise cast
performed by `.astype(np.float32)` in the source. -/
def roundF32 (q : ℚ) : ℚ :=
  if q = 0 then 0
  else ((f32mk q.num q.den).1 : ℚ) * (2 : ℚ) ^ (f32mk q.num q.den).2

/-! ### ONNX-Runtime session options

`session_options = rt.SessionOptions()` with
`inter_op_num_threads = 1`, `intra_op_num_threads = 1`,
`execution_mode = rt.ExecutionMode.ORT_SEQUENTIAL`. -/

/-- `onnxruntime.ExecutionMode`. -/
inductive ExecutionMode where
  | ORT_SEQUENTIAL
  | ORT_PARALLEL
deriving DecidableEq

/-- The execution-policy fields of `onnxruntime.SessionOptions` set by the
source. -/
structure SessionOptions where
  inter_op_num_threads : ℕ
  intra_op_num_threads : ℕ
  execution_mode : ExecutionMode
deriving DecidableEq

/-- The module-level `session_options` value after the three assignments in
the source. -/
def session_options : SessionOptions :=
  { inter_op_num_threads := 1
    intra_op_num_threads := 1
    execution_mode := ExecutionMode.ORT_SEQUENTIAL }

/-! ### Model artifact path

`model_directory = os.path.dirname(os.path.abspath(__file__))`;
`onnx_model_path = os.path.join(model_directory, "xgb_model.onnx")`.
POSIX paths are modelled as strings; `__file__` is the path of the
service's own module. -/

/-- `os.path.isabs` (POSIX): the path begins with a slash. -/
def is_abs (p : String) : Bool := p.data.head? = some '/'

/-- `os.path.abspath` (POSIX, without normalization, which the source's
paths never need): an absolute path is returned as is, a relative one is
joined onto the current working directory. -/
def abspath (cwd p : String) : String :=
  if is_abs p then p else cwd ++ "/" ++ p

/-- `os.path.dirname` (POSIX): everything before the final slash. -/
def dirname (p : String) : String :=
  String.intercalate "/" (p.splitOn "/").dropLast

/-- `os.path.join` (POSIX) for two components. -/
def path_join (a b : String) : String :=
  if is_abs b then b
  else if a.endsWith "/" then a ++ b
  else a ++ "/" ++ b

/-- `model_directory`: directory of the service's own module file, given
the process working directory `cwd` and the module path `file`. -/
def model_directory (cwd file : String) : String :=
  dirname (abspath cwd file)

/-- `onnx_model_path`: the artifact path handed to
`rt.InferenceSession`. -/
def onnx_model_path (cwd file : String) : String :=
  path_join (model_directory cwd file) "xgb_model.onnx"

/-! ### The inference session (Model Handle) -/

/-- A loaded `onnxruntime.InferenceSession`: its (immutable) options, the
name of its single input, and the engine's run operation, which maps the
input matrix to the list of output arrays (the source indexes `[0]` into
that list).  The engine itself is opaque: `run_model` stands for
`sess.run(None, dict)`. -/
structure InferenceSession where
  options : SessionOptions
  input_name : String
  run_model : List (List ℚ) → Except String (List (List (List ℚ)))

/-- The opaque ONNX-Runtime engine loader: given the artifact path and the
session options, either the input name and run operation of a loaded
model, or the exception message (missing file, corrupt or incompatible
artifact). -/
abbrev EngineLoad :=
  String → SessionOptions → Except String (String × (List (List ℚ) → Except String (List (List (List ℚ)))))

/-- `rt.InferenceSession(onnx_model_path, session_options)`: construct the
handle with the module-level `session_options`. -/
def make_session (engine : EngineLoad) (path : String) : Except String InferenceSession :=
  match engine path session_options with
  | Except.ok p =>
      Except.ok { options := session_options, input_name := p.1, run_model := p.2 }
  | Except.error e => Except.error e

/-! ### Request body model (pydantic `ModelInput`) -/

/-- The pydantic request model: six named sequences.  Floats are exact
rationals (the values carried by the parsed JSON numbers); the timestamp
column is integer-typed. -/
structure ModelInput where
  accelerationY : List ℚ
  accelerationZ : List ℚ
  speedv : List ℚ
  unixTimestamp : List ℤ
  latitude : List ℚ
  longitude : List ℚ
deriving DecidableEq

/-! ### Feature-matrix assembly (pandas) -/

/-- A pandas DataFrame of numeric columns: column name to column values,
in column order. -/
abbrev DataFrame := List (String × List ℚ)

/-- The six column lengths of a request, in the order the DataFrame dict
literal lists them. -/
def column_lengths (inp : ModelInput) : List ℕ :=
  [inp.accelerationY.length, inp.accelerationZ.length, inp.speedv.length,
   inp.unixTimestamp.length, inp.latitude.length, inp.longitude.length]

/-- Whether all six sequences have the common length (pandas accepts the
dict of columns exactly when they do). -/
def lengths_aligned (inp : ModelInput) : Bool :=
  (column_lengths inp).all fun l => l = inp.accelerationY.length

/-- `pd.DataFrame({...})` over the six fields: the dict literal in the
source, with the integer timestamp column widened to the numeric element
type.  pandas raises `ValueError` when the column lengths differ. -/
def mk_input_data (inp : ModelInput) : Except String DataFrame :=
  if lengths_aligned inp then
    Except.ok
      [("accelerationY", inp.accelerationY),
       ("accelerationZ", inp.accelerationZ),
       ("speedv", inp.speedv),
       ("unixTimestamp", inp.unixTimestamp.map fun z => (z : ℚ)),
       ("latitude", inp.latitude),
       ("longitude", inp.longitude)]
  else Except.error "All arrays must be of the same length"

/-- Column lookup by name (first match), as pandas column indexing does.
Only ever applied to names present in the frame. -/
def lookupCol (c : String) : DataFrame → List ℚ
  | [] => []
  | (c', v) :: rest => if c = c' then v else lookupCol c rest

/-- `df[required_columns]`: reindex the frame to the named columns, in the
given order, by name. -/
def df_reindex (df : DataFrame) (cols : List String) : DataFrame :=
  cols.map fun c => (c, lookupCol c df)

/-- The DataFrame's row count: the (common) length of its columns. -/
def df_nrows (df : DataFrame) : ℕ :=
  (df.head?.map fun p => p.2.length).getD 0

/-- `df.values`: the row-major N×(number of columns) value matrix. -/
def df_values (df : DataFrame) : List (List ℚ) :=
  (List.range (df_nrows df)).map fun i => df.map fun col => col.2.getD i 0

/-- `.astype(np.float32)`: cast every element to binary32. -/
def astype_float32 (m : List (List ℚ)) : List (List ℚ) :=
  m.map fun row => row.map roundF32

/-- `required_columns` from the source: the fixed model column order. -/
def required_columns : List String :=
  ["accelerationY", "accelerationZ", "speedv", "unixTimestamp", "latitude", "longitude"]

/-- The assembled feature matrix of a request:
`pd.DataFrame({...})[required_columns].values.astype(np.float32)`. -/
def feature_matrix (inp : ModelInput) : Except String (List (List ℚ)) :=
  match mk_input_data inp with
  | Except.ok df => Except.ok (astype_float32 (df_values (df_reindex df required_columns)))
  | Except.error e => Except.error e

/-! ### The `/predict` handler -/

/-- `fastapi.HTTPException`: status code and detail payload. -/
structure HTTPException where
  status_code : ℕ
  detail : String
deriving DecidableEq

/-- The success response body: `{"predictions": predictions.tolist()}`. -/
structure PredictResponse where
  predictions : List (List ℚ)
deriving DecidableEq

/-- The body of the `try` block of `predict`: assemble the feature matrix,
run the session, index `[0]` into the output list. -/
def predict_body (sess : InferenceSession) (inp : ModelInput) :
    Except String (List (List ℚ)) :=
  match feature_matrix inp with
  | Except.error e => Except.error e
  | Except.ok input_data =>
      match sess.run_model input_data with
      | Except.error e => Except.error e
      | Except.ok [] => Except.error "list index out of range"
      | Except.ok (p :: _) => Except.ok p

/-- The `/predict` route handler: any exception raised in the `try` block
is caught and re-raised as
`HTTPException(status_code=500, detail=f"Prediction error: ...")`. -/
def predict (sess : InferenceSession) (inp : ModelInput) :
    Except HTTPException PredictResponse :=
  match predict_body sess inp with
  | Except.ok preds => Except.ok { predictions := preds }
  | Except.error e => Except.error { status_code := 500, detail := "Prediction error: " ++ e }

/-- `predict` as a state transformer over the shared session: the handler
only ever reads `sess`, so the session it leaves behind is the one it was
given. -/
def predict_serve (sess : InferenceSession) (inp : ModelInput) :
    Except HTTPException PredictResponse × InferenceSession :=
  (predict sess inp, sess)

/-! ### The wire layer: JSON body and pydantic parsing -/

/-- A JSON value as far as this service distinguishes them: a number, an
array of numbers, or anything else. -/
inductive JVal where
  | num (q : ℚ)
  | arr (xs : List ℚ)
  | other
deriving DecidableEq

/-- Key lookup in a JSON object (association list of distinct keys), by
name. -/
def jlookup (k : String) : List (String × JVal) → Option JVal
  | [] => none
  | (k', v) :: rest => if k = k' then some v else jlookup k rest

/-- pydantic validation of a `list[float]` field: an array of numbers. -/
def parse_float_list : Option JVal → Option (List ℚ)
  | some (JVal.arr xs) => some xs
  | _ => none

/-- pydantic validation of a `list[int]` field: an array of numbers with
no fractional part. -/
def parse_int_list : Option JVal → Option (List ℤ)
  | some (JVal.arr xs) =>
      if xs.all fun q => q.den = 1 then some (xs.map Rat.num) else none
  | _ => none

/-- pydantic construction of `ModelInput` from the request JSON object:
each declared field is looked up by name; unknown keys are ignored
(pydantic's default `extra` behaviour). -/
def parse_model_input (o : List (String × JVal)) : Option ModelInput := do
  let aY ← parse_float_list (jlookup "accelerationY" o)
  let aZ ← parse_float_list (jlookup "accelerationZ" o)
  let sv ← parse_float_list (jlookup "speedv" o)
  let ts ← parse_int_list (jlookup "unixTimestamp" o)
  let lat ← parse_float_list (jlookup "latitude" o)
  let lon ← parse_float_list (jlookup "longitude" o)
  pure { accelerationY := aY, accelerationZ := aZ, speedv := sv,
         unixTimestamp := ts, latitude := lat, longitude := lon }

/-- `POST /predict` at the wire: FastAPI rejects bodies that fail pydantic
validation with 422 before the handler runs; otherwise the handler is
invoked on the parsed model. -/
def handle_predict (sess : InferenceSession) (o : List (String × JVal)) :
    Except HTTPException PredictResponse :=
  match parse_model_input o with
  | none => Except.error { status_code := 422, detail := "Unprocessable Entity" }
  | some inp => predict sess inp

/-! ### Startup -/

/-- The process after module initialization: serving with a loaded
session, or aborted by the re-raised load exception. -/
inductive AppState where
  | running (sess : InferenceSession)
  | aborted (msg : String)

/-- Module initialization: `try: sess = rt.InferenceSession(...)`
`except ... raise` — a load failure is printed and re-raised, aborting
startup with the underlying cause. -/
def startup (engine : EngineLoad) (path : String) : AppState :=
  match make_session engine path with
  | Except.ok s => AppState.running s
  | Except.error e => AppState.aborted e

/-- Request dispatch: only a running process serves `/predict`; an aborted
process accepts no traffic. -/
def serve : AppState → List (String × JVal) → Option (Except HTTPException PredictResponse)
  | AppState.running s, o => some (handle_predict s o)
  | AppState.aborted _, _ => none

/-! ### The spec's ValidationError, for comparison with the code

Modelled from the spec (§7): a `ValidationError` is a distinct
per-request validation failure, "surfaced to caller as a 4xx-equivalent
structured error" — as opposed to the generic wrapped
`Prediction error:` 500 used for caught exceptions.  The source has no
such distinct error path; this definition exists to compare the code's
behaviour against the spec's words. -/

/-- A structured error is 4xx-equivalent (the spec's `ValidationError`
propagation class). -/
def is_validation_error (e : HTTPException) : Prop :=
  400 ≤ e.status_code ∧ e.status_code < 500

/-! ### Sample sessions, engines, and requests used by witnesses -/

/-- An engine loader that succeeds with a single-output identity model. -/
def demo_engine : EngineLoad :=
  fun _ _ => Except.ok ("input", fun m => Except.ok [m])

/-- An engine loader that fails the way a missing artifact does. -/
def demo_engine_fail : EngineLoad :=
  fun _ _ => Except.error "Load model from xgb_model.onnx failed"

/-- The session `make_session demo_engine` constructs. -/
def demo_session : InferenceSession :=
  { options := session_options
    input_name := "input"
    run_model := fun m => Except.ok [m] }

/-- A session whose engine fails at inference time. -/
def demo_session_err : InferenceSession :=
  { options := session_options
    input_name := "input"
    run_model := fun _ => Except.error "engine failure" }

/-- The spec's length-mismatch scenario: `accelerationY` of length 3 but
`latitude` of length 2. -/
def mismatch_input : ModelInput :=
  { accelerationY := [1, 2, 3], accelerationZ := [4, 5, 6], speedv := [7, 8, 9],
    unixTimestamp := [10, 11, 12], latitude := [13, 14], longitude := [15, 16, 17] }

/-- An aligned single-row request. -/
def demo_input1 : ModelInput :=
  { accelerationY := [5], accelerationZ := [6], speedv := [7],
    unixTimestamp := [8], latitude := [9], longitude := [10] }

/-- An aligned two-row request. -/
def demo_input3 : ModelInput :=
  { accelerationY := [1, 2], accelerationZ := [3, 4], speedv := [5, 6],
    unixTimestamp := [100, 200], latitude := [7, 8], longitude := [9, 10] }

/-- A single-row request body, keys in declaration order. -/
def demo_request : List (String × JVal) :=
  [("accelerationY", JVal.arr [1]), ("accelerationZ", JVal.arr [2]),
   ("speedv", JVal.arr [3]), ("unixTimestamp", JVal.arr [1000]),
   ("latitude", JVal.arr [10]), ("longitude", JVal.arr [20])]

/-- The same request body with its keys permuted. -/
def demo_request_permuted : List (String × JVal) :=
  [("longitude", JVal.arr [20]), ("latitude", JVal.arr [10]),
   ("unixTimestamp", JVal.arr [1000]), ("speedv", JVal.arr [3]),
   ("accelerationZ", JVal.arr [2]), ("accelerationY", JVal.arr [1])]

/-- The same request body with an extra, unrecognized key added. -/
def demo_request_extra : List (String × JVal) :=
  ("sensorId", JVal.num 7) :: demo_request

/-! ### Helper lemmas -/

/-- Key lookup in an association list with distinct keys is invariant
under permutation of the entries. -/
theorem jlookup_perm {l₁ l₂ : List (String × JVal)} (hp : l₁.Perm l₂)
    (hn : (l₁.map Prod.fst).Nodup) (k : String) :
    jlookup k l₁ = jlookup k l₂ := by
  induction hp with
  | nil => rfl
  | cons a hp ih =>
      simp only [List.map_cons, List.nodup_cons] at hn
      simp only [jlookup]
      by_cases hk : k = a.1
      · simp [hk]
      · simp [hk, ih hn.2]
  | swap a b l =>
      simp only [List.map_cons, List.nodup_cons, List.mem_cons] at hn
      have hab : b.1 ≠ a.1 := fun h => hn.1 (Or.inl h)
      simp only [jlookup]
      by_cases hkb : k = b.1
      · have hka : ¬ k = a.1 := fun h => hab (hkb.symm.trans h)
        simp only [if_pos hkb, if_neg hka]
      · by_cases hka : k = a.1
        · simp only [if_neg hkb, if_pos hka]
        · simp only [if_neg hkb, if_neg hka]
  | trans hp₁ hp₂ ih₁ ih₂ =>
      exact (ih₁ hn).trans (ih₂ ((hp₁.map Prod.fst).nodup_iff.mp hn))

/-- `parse_model_input` consults the request object only through the six
declared field names. -/
theorem parse_model_input_congr {o₁ o₂ : List (String × JVal)}
    (h : ∀ k ∈ required_columns, jlookup k o₁ = jlookup k o₂) :
    parse_model_input o₁ = parse_model_input o₂ := by
  have h1 := h "accelerationY" (by simp [required_columns])
  have h2 := h "accelerationZ" (by simp [required_columns])
  have h3 := h "speedv" (by simp [required_columns])
  have h4 := h "unixTimestamp" (by simp [required_columns])
  have h5 := h "latitude" (by simp [required_columns])
  have h6 := h "longitude" (by simp [required_columns])
  simp only [parse_model_input, h1, h2, h3, h4, h5, h6]

/-- Two request bodies that agree on the six declared fields produce the
same `/predict` outcome. -/
theorem handle_predict_congr (sess : InferenceSession) {o₁ o₂ : List (String × JVal)}
    (h : ∀ k ∈ required_columns, jlookup k o₁ = jlookup k o₂) :
    handle_predict sess o₁ = handle_predict sess o₂ := by
  unfold handle_predict
  rw [parse_model_input_congr h]

/-- Indexing with default `0` commutes with the `ℤ → ℚ` cast of a
column. -/
theorem getD_map_intCast (l : List ℤ) (i : ℕ) :
    ((l.flatMap fun z => [(z : ℚ)])[i]?).getD 0 = ((l[i]?.getD 0 : ℤ) : ℚ) := by
  induction l generalizing i with
  | nil => simp
  | cons a t ih =>
      cases i with
      | zero => simp
      | succ n => simpa using ih n

/-- Characterization of the assembled feature matrix on aligned requests:
row `i` is the `i`-th element of each of the six sequences, in the fixed
column order, each element cast through the one binary32 rounding (the
integer timestamp column included), with no scaling. -/
theorem feature_matrix_spec (inp : ModelInput) (h : lengths_aligned inp = true) :
    feature_matrix inp =
      Except.ok ((List.range inp.accelerationY.length).map fun i =>
        [roundF32 (inp.accelerationY.getD i 0),
         roundF32 (inp.accelerationZ.getD i 0),
         roundF32 (inp.speedv.getD i 0),
         roundF32 ((inp.unixTimestamp.getD i 0 : ℤ) : ℚ),
         roundF32 (inp.latitude.getD i 0),
         roundF32 (inp.longitude.getD i 0)]) := by
  simp only [feature_matrix, mk_input_data, h, if_true, df_reindex,
    required_columns, List.map_cons, List.map_nil, df_values, df_nrows,
    astype_float32, List.map_map]
  simp [lookupCol, Function.comp]
  intro a _
  simp [getD_map_intCast]

/-! ### The claims -/

/-- C1: `predict` assembles the feature matrix by selecting the six fields
by name in the fixed column order `accelerationY, accelerationZ, speedv,
unixTimestamp, latitude, longitude`, so the single-row request
`(accelerationY [1.0], accelerationZ [2.0], speedv [3.0],
unixTimestamp [1000], latitude [10.5], longitude [20.5])` yields the
matrix `[[1.0, 2.0, 3.0, 1000.0, 10.5, 20.5]]`; and permuting the JSON
keys of any request body does not change the prediction. -/
theorem predict_fixed_column_order :
    feature_matrix
        { accelerationY := [1], accelerationZ := [2], speedv := [3],
          unixTimestamp := [1000], latitude := [10.5], longitude := [20.5] } =
      Except.ok [[1, 2, 3, 1000, 10.5, 20.5]] ∧
    ∀ (sess : InferenceSession) (o₁ o₂ : List (String × JVal)),
      (o₁.map Prod.fst).Nodup → o₁.Perm o₂ →
      handle_predict sess o₁ = handle_predict sess o₂ := by
  constructor
  · rw [feature_matrix_spec _ (by decide)]
    simp [List.range_succ]
    norm_num [roundF32,
      show f32mk 1 1 = (8388608, -23) from by decide,
      show f32mk 2 1 = (8388608, -22) from by decide,
      show f32mk 3 1 = (12582912, -22) from by decide,
      show f32mk 1000 1 = (16384000, -14) from by decide,
      show f32mk 21 2 = (11010048, -20) from by decide,
      show f32mk 41 2 = (10747904, -19) from by decide]
  · intro sess o₁ o₂ hn hp
    exact handle_predict_congr sess fun k _ => jlookup_perm hp hn k

/-- Witness for C1: a concrete request body with distinct keys and a
concrete permutation of it get the same response. -/
theorem predict_fixed_column_order_witness :
    ((demo_request.map Prod.fst).Nodup ∧ demo_request.Perm demo_request_permuted) ∧
    handle_predict demo_session demo_request = handle_predict demo_session demo_request_permuted :=
  ⟨⟨by decide, by decide⟩,
   predict_fixed_column_order.2 demo_session demo_request demo_request_permuted
     (by decide) (by decide)⟩

/-- C2 counterexample: at the spec's own scenario (`accelerationY` of
length 3 but `latitude` of length 2) the handler does fail, but with the
generic wrapped HTTP 500 `Prediction error: ...` produced by the
catch-all `except` clause — not with a distinct 4xx-equivalent
`ValidationError`. -/
theorem length_mismatch_not_validation_error :
    predict demo_session mismatch_input =
      Except.error { status_code := 500,
                     detail := "Prediction error: All arrays must be of the same length" } ∧
    ∀ e, predict demo_session mismatch_input = Except.error e → ¬ is_validation_error e := by
  have h1 : predict demo_session mismatch_input =
      Except.error { status_code := 500,
                     detail := "Prediction error: All arrays must be of the same length" } := rfl
  refine ⟨h1, ?_⟩
  intro e he
  rw [h1] at he
  injection he with h
  rw [← h]
  intro hv
  exact absurd hv.2 (by decide)

/-- C2 (amended): for every request whose six sequences are not all of
equal length, `predict` fails — with the generic wrapped error
HTTP 500 `Prediction error: All arrays must be of the same length`
raised by the pandas DataFrame constructor, not a distinct
`ValidationError` — it never truncates or pads, and the result is the
same whatever the session, so no call reaches the model's inference
operation. -/
theorem length_mismatch_generic_500 :
    ∀ (s₁ s₂ : InferenceSession) (inp : ModelInput), lengths_aligned inp = false →
      predict s₁ inp =
        Except.error { status_code := 500,
                       detail := "Prediction error: All arrays must be of the same length" } ∧
      predict s₁ inp = predict s₂ inp := by
  intro s₁ s₂ inp h
  have hall : ∀ s : InferenceSession, predict s inp =
      Except.error { status_code := 500,
                     detail := "Prediction error: All arrays must be of the same length" } := by
    intro s
    simp [predict, predict_body, feature_matrix, mk_input_data, h]
  exact ⟨hall s₁, (hall s₁).trans (hall s₂).symm⟩

/-- Witness for C2 (amended): the mismatched request fails identically
under two sessions with different engines. -/
theorem length_mismatch_generic_500_witness :
    lengths_aligned mismatch_input = false ∧
    (predict demo_session mismatch_input =
      Except.error { status_code := 500,
                     detail := "Prediction error: All arrays must be of the same length" } ∧
     predict demo_session mismatch_input = predict demo_session_err mismatch_input) :=
  ⟨by decide, length_mismatch_generic_500 demo_session demo_session_err mismatch_input (by decide)⟩

/-- C3: on every aligned request the assembled matrix applies the one
binary32 cast `roundF32` to every element — the integer `unixTimestamp`
column included — with no scaling or normalization: entry `(i, j)` is
exactly the rounding of the raw `i`-th element of the `j`-th field. -/
theorem feature_matrix_uniform_float32 :
    ∀ (inp : ModelInput), lengths_aligned inp = true →
      feature_matrix inp =
        Except.ok ((List.range inp.accelerationY.length).map fun i =>
          [roundF32 (inp.accelerationY.getD i 0),
           roundF32 (inp.accelerationZ.getD i 0),
           roundF32 (inp.speedv.getD i 0),
           roundF32 ((inp.unixTimestamp.getD i 0 : ℤ) : ℚ),
           roundF32 (inp.latitude.getD i 0),
           roundF32 (inp.longitude.getD i 0)]) :=
  fun inp h => feature_matrix_spec inp h

/-- Witness for C3: the coercion shape evaluated on a concrete two-row
request. -/
theorem feature_matrix_uniform_float32_witness :
    lengths_aligned demo_input3 = true ∧
    feature_matrix demo_input3 =
      Except.ok ((List.range demo_input3.accelerationY.length).map fun i =>
        [roundF32 (demo_input3.accelerationY.getD i 0),
         roundF32 (demo_input3.accelerationZ.getD i 0),
         roundF32 (demo_input3.speedv.getD i 0),
         roundF32 ((demo_input3.unixTimestamp.getD i 0 : ℤ) : ℚ),
         roundF32 (demo_input3.latitude.getD i 0),
         roundF32 (demo_input3.longitude.getD i 0)]) :=
  ⟨by decide, feature_matrix_uniform_float32 demo_input3 (by decide)⟩

/-- C4: on every valid aligned request with `N ≥ 1` rows whose model
output is row-aligned, `predict` succeeds and returns the model's rows
unchanged and in order — exactly `N` result rows, row `i` of the
response being row `i` of the output for observation `i`. -/
theorem predict_row_count_preserved :
    ∀ (sess : InferenceSession) (inp : ModelInput) (m out : List (List ℚ)),
      lengths_aligned inp = true →
      1 ≤ inp.accelerationY.length →
      feature_matrix inp = Except.ok m →
      sess.run_model m = Except.ok [out] →
      out.length = m.length →
      predict sess inp = Except.ok { predictions := out } ∧
      out.length = inp.accelerationY.length := by
  intro sess inp m out hal _ hm hrun hlen
  constructor
  · simp [predict, predict_body, hm, hrun]
  · rw [feature_matrix_spec inp hal] at hm
    injection hm with hm
    rw [hlen, ← hm]
    simp

/-- Witness for C4: a concrete single-row request through the identity
model returns exactly one row. -/
theorem predict_row_count_preserved_witness :
    (lengths_aligned demo_input1 = true ∧
     feature_matrix demo_input1 = Except.ok [[5, 6, 7, 8, 9, 10]] ∧
     demo_session.run_model [[5, 6, 7, 8, 9, 10]] = Except.ok [[[5, 6, 7, 8, 9, 10]]]) ∧
    predict demo_session demo_input1 = Except.ok { predictions := [[5, 6, 7, 8, 9, 10]] } ∧
    ([[5, 6, 7, 8, 9, 10]] : List (List ℚ)).length = demo_input1.accelerationY.length := by
  have hfm : feature_matrix demo_input1 = Except.ok [[5, 6, 7, 8, 9, 10]] := by
    rw [feature_matrix_spec _ (by decide)]
    simp [demo_input1, List.range_succ]
    norm_num [roundF32,
      show f32mk 5 1 = (10485760, -21) from by decide,
      show f32mk 6 1 = (12582912, -21) from by decide,
      show f32mk 7 1 = (14680064, -21) from by decide,
      show f32mk 8 1 = (8388608, -20) from by decide,
      show f32mk 9 1 = (9437184, -20) from by decide,
      show f32mk 10 1 = (10485760, -20) from by decide]
  exact ⟨⟨by decide, hfm, rfl⟩,
    predict_row_count_preserved demo_session demo_input1 [[5, 6, 7, 8, 9, 10]]
      [[5, 6, 7, 8, 9, 10]] (by decide) (by decide) hfm rfl rfl⟩

/-- C5: every failing `predict` call returns the structured HTTP 500
payload `Prediction error: <message>` carrying the underlying cause, and
leaves the shared session untouched, so no failure terminates the
process or affects later requests. -/
theorem predict_failure_structured_500 :
    ∀ (sess : InferenceSession) (inp : ModelInput) (e : HTTPException),
      predict sess inp = Except.error e →
      (∃ msg, e = { status_code := 500, detail := "Prediction error: " ++ msg }) ∧
      (predict_serve sess inp).2 = sess := by
  intro sess inp e he
  refine ⟨?_, rfl⟩
  unfold predict at he
  cases hb : predict_body sess inp with
  | ok p => rw [hb] at he; cases he
  | error msg =>
      rw [hb] at he
      injection he with h
      exact ⟨msg, h.symm⟩

/-- Witness for C5: a request that fails inside the engine comes back as
the wrapped 500 with the engine's message. -/
theorem predict_failure_structured_500_witness :
    predict demo_session_err demo_input1 =
      Except.error { status_code := 500, detail := "Prediction error: engine failure" } ∧
    ((∃ msg, ({ status_code := 500, detail := "Prediction error: engine failure" } : HTTPException) =
        { status_code := 500, detail := "Prediction error: " ++ msg }) ∧
     (predict_serve demo_session_err demo_input1).2 = demo_session_err) := by
  have hfm := feature_matrix_spec demo_input1 (by decide)
  have hp : predict demo_session_err demo_input1 =
      Except.error { status_code := 500, detail := "Prediction error: engine failure" } := by
    simp [predict, predict_body, hfm, demo_session_err]
  exact ⟨hp, predict_failure_structured_500 demo_session_err demo_input1 _ hp⟩

/-- C6: `predict` reads but never mutates the shared session, so calling
it twice with identical input yields identical output: the session left
behind is the one given, and a second call on it returns the same
result. -/
theorem predict_idempotent_stateless :
    ∀ (sess : InferenceSession) (inp : ModelInput),
      (predict_serve sess inp).2 = sess ∧
      (predict_serve ((predict_serve sess inp).2) inp).1 = (predict_serve sess inp).1 :=
  fun _ _ => ⟨rfl, rfl⟩

/-- C7: if the engine cannot load the artifact (missing, corrupt, or
incompatible), startup aborts carrying the underlying cause, and the
aborted process serves no `/predict` traffic. -/
theorem load_failure_aborts_startup :
    ∀ (engine : EngineLoad) (path : String) (e : String),
      engine path session_options = Except.error e →
      startup engine path = AppState.aborted e ∧
      ∀ (o : List (String × JVal)), serve (startup engine path) o = none := by
  intro engine path e he
  have hs : startup engine path = AppState.aborted e := by
    simp [startup, make_session, he]
  exact ⟨hs, fun o => by rw [hs]; rfl⟩

/-- Witness for C7: a failing loader aborts startup with its message and
serves nothing. -/
theorem load_failure_aborts_startup_witness :
    demo_engine_fail "xgb_model.onnx" session_options =
      Except.error "Load model from xgb_model.onnx failed" ∧
    (startup demo_engine_fail "xgb_model.onnx" =
      AppState.aborted "Load model from xgb_model.onnx failed" ∧
     ∀ (o : List (String × JVal)), serve (startup demo_engine_fail "xgb_model.onnx") o = none) :=
  ⟨rfl, load_failure_aborts_startup demo_engine_fail "xgb_model.onnx" _ rfl⟩

/-- C8: the session is constructed at load time with inter-operator
parallelism 1, intra-operator parallelism 1, and strictly sequential
execution mode; every constructed handle carries exactly this fixed
policy, and serving requests never changes it. -/
theorem session_execution_policy_constant :
    session_options.inter_op_num_threads = 1 ∧
    session_options.intra_op_num_threads = 1 ∧
    session_options.execution_mode = ExecutionMode.ORT_SEQUENTIAL ∧
    (∀ (engine : EngineLoad) (path : String) (s : InferenceSession),
      make_session engine path = Except.ok s → s.options = session_options) ∧
    (∀ (s : InferenceSession) (inp : ModelInput),
      ((predict_serve s inp).2).options = s.options) := by
  refine ⟨rfl, rfl, rfl, ?_, fun s inp => rfl⟩
  intro engine path s hs
  unfold make_session at hs
  cases he : engine path session_options with
  | ok p => rw [he] at hs; injection hs with h; rw [← h]
  | error e => rw [he] at hs; cases hs

/-- Witness for C8: the successfully loaded sample session carries the
constant policy. -/
theorem session_execution_policy_constant_witness :
    make_session demo_engine "xgb_model.onnx" = Except.ok demo_session ∧
    demo_session.options = session_options :=
  ⟨rfl,
   session_execution_policy_constant.2.2.2.1 demo_engine "xgb_model.onnx" demo_session rfl⟩

/-- C9: for an absolute module path, the artifact path is resolved from
the directory containing the service's own code and does not depend on
the process working directory. -/
theorem model_path_independent_of_cwd :
    ∀ (cwd₁ cwd₂ file : String), is_abs file = true →
      onnx_model_path cwd₁ file = onnx_model_path cwd₂ file ∧
      onnx_model_path cwd₁ file = path_join (dirname file) "xgb_model.onnx" := by
  intro c₁ c₂ f hf
  have h : ∀ c, onnx_model_path c f = path_join (dirname f) "xgb_model.onnx" := by
    intro c
    simp [onnx_model_path, model_directory, abspath, hf]
  exact ⟨(h c₁).trans (h c₂).symm, h c₁⟩

/-- Witness for C9: the artifact path computed from two different working
directories is the same concrete path. -/
theorem model_path_independent_of_cwd_witness :
    is_abs "/srv/roadsense/app.py" = true ∧
    onnx_model_path "/home/user" "/srv/roadsense/app.py" =
      onnx_model_path "/tmp" "/srv/roadsense/app.py" :=
  ⟨by decide,
   (model_path_independent_of_cwd "/home/user" "/tmp" "/srv/roadsense/app.py" (by decide)).1⟩

/-- C10: two request bodies that agree on the six declared fields get
identical responses — extra, unrecognized JSON keys are neither rejected
nor used and have no effect on the prediction. -/
theorem predict_ignores_extra_keys :
    ∀ (sess : InferenceSession) (o₁ o₂ : List (String × JVal)),
      (∀ k ∈ required_columns, jlookup k o₁ = jlookup k o₂) →
      handle_predict sess o₁ = handle_predict sess o₂ :=
  fun sess _ _ h => handle_predict_congr sess h

/-- Witness for C10: adding an extra key to a concrete request leaves the
response unchanged. -/
theorem predict_ignores_extra_keys_witness :
    (∀ k ∈ required_columns, jlookup k demo_request = jlookup k demo_request_extra) ∧
    handle_predict demo_session demo_request = handle_predict demo_session demo_request_extra :=
  ⟨by decide,
   predict_ignores_extra_keys demo_session demo_request demo_request_extra (by decide)⟩

end RoadSense
